import Mathlib

/-! Verification development for a Telegram air-quality bot (`bot.py`,
`open_meteo.py`).
Strings from the Python side are modelled as lists of characters (`Str`), the
filesystem as the list of existing paths, and the remote HTTP services as an
explicit environment record.  Every Python function the claims touch is embedded
as an executable Lean definition that mirrors its source line by line.
-/

namespace TgWeatherBot

/-- Model of a Python string: a list of characters. -/
abbrev Str := List Char

/-- Model of the filesystem: the list of paths that currently exist. -/
abbrev FS := List Str

/-- Length bound for `List.dropWhile`, used for termination below. -/
theorem dropWhile_length_le {α : Type} (p : α → Bool) :
    ∀ l : List α, (l.dropWhile p).length ≤ l.length
  | [] => Nat.le_refl _
  | a :: l => by
    simp only [List.dropWhile]
    cases h : p a
    · simp
    · simpa using Nat.le_succ_of_le (dropWhile_length_le p l)

/-- Fuelled splitter behind `words`; the fuel only bounds recursion depth and
never runs out when it starts at the string length. -/
def wordsF : Nat → Str → List Str
  | _, [] => []
  | 0, _ :: _ => []
  | fuel + 1, c :: cs =>
    if c.isWhitespace then wordsF fuel cs
    else (c :: cs.takeWhile (fun d => !d.isWhitespace)) ::
      wordsF fuel (cs.dropWhile (fun d => !d.isWhitespace))

/-- Python `str.split()` (split on runs of whitespace, dropping empty pieces):
each maximal run of non-whitespace characters becomes one word. -/
def words (l : Str) : List Str := wordsF l.length l

/-- Python `str.strip()`: drop whitespace from both ends. -/
def strip (l : Str) : Str :=
  ((l.dropWhile Char.isWhitespace).reverse.dropWhile Char.isWhitespace).reverse

/-- Python `" ".join(args)`. -/
def joinSpace : List Str → Str
  | [] => []
  | [w] => w
  | w :: ws => w ++ ' ' :: joinSpace ws

/-- Fuelled scanner behind `removeOcc`; the fuel only bounds recursion depth
and never runs out when it starts at the string length. -/
def removeOccF (pat : Str) : Nat → Str → Str
  | _, [] => []
  | 0, c :: cs => c :: cs
  | fuel + 1, c :: cs =>
    if pat.isEmpty then c :: cs
    else if pat.isPrefixOf (c :: cs) then
      removeOccF pat fuel ((c :: cs).drop pat.length)
    else c :: removeOccF pat fuel cs

/-- Python `s.replace(pat, "")` for a non-empty pattern: remove every
(left-to-right, non-overlapping) occurrence of `pat` from `s`. -/
def removeOcc (pat s : Str) : Str := removeOccF pat s.length s

/-- Decides whether `pat` occurs as a contiguous substring of `s`. -/
def containsSub (pat : Str) : Str → Bool
  | [] => pat.isEmpty
  | c :: cs => pat.isPrefixOf (c :: cs) || containsSub pat cs

/-- Runtime errors a handler can observe.  `indexError`/`typeError` arise from
Python subscripting, `unboundLocalError` from reading a never-assigned local,
`transportError`/`sendError` model network and Telegram-send failures (their
payload is the raw error text), and `notFoundError` is the error class the
error class that the specification taxonomy prescribes for an empty geocoding result. -/
inductive PyError where
  | indexError
  | typeError
  | unboundLocalError
  | transportError (msg : Str)
  | sendError (msg : Str)
  | notFoundError
deriving DecidableEq

/-- One geocoding match, as found in the JSON `results` array. -/
structure GeoEntry where
  name : Str
  latitude : Rat
  longitude : Rat
deriving DecidableEq

/-- Body of a geocoding response: `.get("results")` yields `none` when the key
is absent and `some l` otherwise. -/
structure GeoResponse where
  results : Option (List GeoEntry)
deriving DecidableEq

/-- Request signature for the air-quality API, mirroring the `params` dict of
`scrape_weather_data` / `scrape_historic_weather_data`.  The HTTP cache is
keyed by this full signature. -/
structure AQRequest where
  url : Str
  latitude : Rat
  longitude : Rat
  current : List Str := []
  hourly : List Str := []
  past_days : Option Nat := none
deriving DecidableEq

/-- Positional `Current()` block of an air-quality response: `values` holds
`Variables(i).Value()` at index `i`, in the order the request listed them. -/
structure CurrentBlock where
  values : List Rat
deriving DecidableEq

/-- One location response of the air-quality API for a current-conditions
query. -/
structure WeatherResponse where
  latitude : Rat
  longitude : Rat
  current : CurrentBlock
deriving DecidableEq

/-- Hourly block of a historic response: `time`/`timeEnd` are epoch seconds,
`interval` the sample spacing in seconds, and `values` holds each requested
series of each requested variable positionally (`Variables(i).ValuesAsNumpy()`). -/
structure HourlyBlock where
  time : Nat
  timeEnd : Nat
  interval : Nat
  values : List (List Rat)
deriving DecidableEq

/-- One location response of the air-quality API for a historic query. -/
structure HistoricResponse where
  hourly : HourlyBlock
deriving DecidableEq

/-- Remote services as the handlers see them.  The air-quality transports are
indexed by attempt number so the retry layer is meaningful; `photoSend` is the
outcome of `reply_photo`. -/
structure Env where
  geo : Str → Except PyError GeoResponse
  aq : AQRequest → Nat → Except PyError (List WeatherResponse)
  aqHistoric : AQRequest → Nat → Except PyError (List HistoricResponse)
  photoSend : Except PyError Unit := .ok ()

/-- One entry of the `requests_cache` backend: the request signature, the time
the response was stored, and the stored response. -/
structure CacheEntry (α : Type) where
  req : AQRequest
  storedAt : Nat
  resp : α
deriving DecidableEq

/-- The `.cache` backend shared by all calls, newest entry first. -/
abbrev Cache (α : Type) := List (CacheEntry α)

/-- Cache freshness window configured by `CachedSession(".cache",
expire_after=3600)`. -/
def expire_after : Nat := 3600

/-- Lookup in the cached session: a stored response is served only while
`now < storedAt + expire_after`. -/
def cacheLookup {α : Type} (c : Cache α) (req : AQRequest) (now : Nat) :
    Option α :=
  match c.find? (fun e => e.req == req) with
  | some e => if now < e.storedAt + expire_after then some e.resp else none
  | none => none

/-- Retrying transport `retry(cache_session, retries=5, ...)`: attempt the
fetch, retrying on failure while fuel remains; returns the final outcome and
the number of HTTP attempts made. -/
def retryLoop {R : Type} (fetch : Nat → Except PyError R) (attempt : Nat) :
    Nat → Except PyError R × Nat
  | 0 => (fetch attempt, 1)
  | n + 1 =>
    match fetch attempt with
    | .ok r => (.ok r, 1)
    | .error _ =>
      let p := retryLoop fetch (attempt + 1) n
      (p.1, p.2 + 1)

/-- Number of retries configured on the retrying session. -/
def retries : Nat := 5

/-- Python `l[i]`: the element at `i`, or an `IndexError`. -/
def pyIndex {α : Type} (l : List α) (i : Nat) : Except PyError α :=
  match l.get? i with
  | some a => .ok a
  | none => .error .indexError

/-- Fixed part of the geocoding URL before the interpolated city. -/
def geocodingUrlPre : Str :=
  "https://geocoding-api.open-meteo.com/v1/search?name=".toList

/-- Fixed part of the geocoding URL after the interpolated city. -/
def geocodingUrlSuf : Str := "&count=1&format=json".toList

/-- The f-string URL of `geocoding_search_city`: the city is interpolated
verbatim between the two fixed parts (no URL encoding). -/
def geocodingUrl (city : Str) : Str :=
  geocodingUrlPre ++ city ++ geocodingUrlSuf

/-- Embedding of `geocoding_search_city` (open_meteo.py:11-20).  It issues one
GET to `geocodingUrl city` and evaluates `response.json().get("results")[0]`:
an absent `results` key makes the subscript a `TypeError`, an empty list an
`IndexError`.  Returns the result together with the list of GET URLs issued. -/
def geocoding_search_city (env : Env) (city : Str) :
    Except PyError GeoEntry × List Str :=
  let url := geocodingUrl city
  let res : Except PyError GeoEntry :=
    match env.geo url with
    | .error e => .error e
    | .ok resp =>
      match resp.results with
      | none => .error .typeError
      | some [] => .error .indexError
      | some (g :: _) => .ok g
  (res, [url])

/-- Endpoint shared by both air-quality scrapers. -/
def air_quality_url : Str :=
  "https://air-quality-api.open-meteo.com/v1/air-quality".toList

/-- The four pollutant variables, in the order both scrapers request them. -/
def pollutantVars : List Str :=
  ["pm10".toList, "pm2_5".toList, "carbon_monoxide".toList,
    "nitrogen_dioxide".toList]

/-- The `params` dict of `scrape_weather_data`. -/
def aqCurrentParams (latitude longitude : Rat) : AQRequest :=
  { url := air_quality_url, latitude := latitude, longitude := longitude,
    current := pollutantVars }

/-- The dict built by `scrape_weather_data` (open_meteo.py:49-57), with the
same keys as fields. -/
structure CurrentReading where
  latitude : Rat
  longitude : Rat
  current_pm10 : Rat
  current_pm2_5 : Rat
  current_carbon_monoxide : Rat
  current_nitrogen_dioxide : Rat
deriving DecidableEq

/-- Field extraction of `scrape_weather_data`: bind `current.Variables(i)` for
`i = 0,1,2,3` to the four pollutant keys, positionally and in order. -/
def processCurrent (resp : WeatherResponse) : Except PyError CurrentReading :=
  match pyIndex resp.current.values 0 with
  | .error e => .error e
  | .ok v0 =>
    match pyIndex resp.current.values 1 with
    | .error e => .error e
    | .ok v1 =>
      match pyIndex resp.current.values 2 with
      | .error e => .error e
      | .ok v2 =>
        match pyIndex resp.current.values 3 with
        | .error e => .error e
        | .ok v3 =>
          .ok { latitude := resp.latitude, longitude := resp.longitude,
                current_pm10 := v0, current_pm2_5 := v1,
                current_carbon_monoxide := v2,
                current_nitrogen_dioxide := v3 }

/-- Embedding of `scrape_weather_data` (open_meteo.py:23-57): a cached,
retrying request for the current pollutant variables followed by positional
extraction (`responses[0]`, then `Variables(0..3)`).  Returns the reading, the
updated cache, and the number of upstream HTTP attempts this call issued. -/
def scrape_weather_data (env : Env) (cache : Cache (List WeatherResponse))
    (now : Nat) (latitude longitude : Rat) :
    Except PyError CurrentReading × Cache (List WeatherResponse) × Nat :=
  let req := aqCurrentParams latitude longitude
  match cacheLookup cache req now with
  | some resps =>
    (match pyIndex resps 0 with
     | .error e => .error e
     | .ok resp => processCurrent resp, cache, 0)
  | none =>
    match retryLoop (env.aq req) 0 retries with
    | (.ok resps, k) =>
      (match pyIndex resps 0 with
       | .error e => .error e
       | .ok resp => processCurrent resp,
        { req := req, storedAt := now, resp := resps } :: cache, k)
    | (.error e, k) => (.error e, cache, k)

/-- The `params` dict of `scrape_historic_weather_data`. -/
def aqHistoricParams (latitude longitude : Rat) : AQRequest :=
  { url := air_quality_url, latitude := latitude, longitude := longitude,
    hourly := pollutantVars, past_days := some 7 }

/-- Model of `pandas.date_range(start, end, freq, inclusive="left")` on epoch
seconds: every `start + k * freq` strictly below `stop`, in order. -/
def dateRange (start stop freq : Nat) : List Nat :=
  if freq = 0 then []
  else (List.range ((stop - start + freq - 1) / freq)).map
    (fun k => start + k * freq)

/-- The dataframe columns built by `scrape_historic_weather_data`
(open_meteo.py:77-88). -/
structure HourlyFrame where
  date : List Nat
  pm10 : List Rat
  pm2_5 : List Rat
  carbon_monoxide : List Rat
  nitrogen_dioxide : List Rat
deriving DecidableEq

/-- Frame construction of `scrape_historic_weather_data`: the time axis from
`Time()`, `TimeEnd()` and `Interval()` (end excluded), and the four variable
series bound positionally. -/
def processHistoric (resp : HistoricResponse) : Except PyError HourlyFrame :=
  match pyIndex resp.hourly.values 0 with
  | .error e => .error e
  | .ok v0 =>
    match pyIndex resp.hourly.values 1 with
    | .error e => .error e
    | .ok v1 =>
      match pyIndex resp.hourly.values 2 with
      | .error e => .error e
      | .ok v2 =>
        match pyIndex resp.hourly.values 3 with
        | .error e => .error e
        | .ok v3 =>
          .ok { date := dateRange resp.hourly.time resp.hourly.timeEnd
                  resp.hourly.interval,
                pm10 := v0, pm2_5 := v1, carbon_monoxide := v2,
                nitrogen_dioxide := v3 }

/-- The fixed artifact path `image_path = "historic_weather_plot.png"`
(open_meteo.py:105). -/
def image_path : Str := "historic_weather_plot.png".toList

/-- Write (or overwrite) a file at `p`. -/
def addFile (fs : FS) (p : Str) : FS := if p ∈ fs then fs else p :: fs

/-- The `if os.path.exists(p): os.remove(p)` cleanup idiom. -/
def removeFile (fs : FS) (p : Str) : FS := fs.filter (fun q => q ≠ p)

/-- Embedding of `scrape_historic_weather_data` (open_meteo.py:59-109): cached,
retrying request for the hourly series with `past_days = 7`, dataframe
construction, then `plt.savefig(image_path)`.  Returns the frame and artifact
path, the updated cache, the upstream HTTP attempts, and the filesystem after
the plot is written (unchanged when any step fails before `savefig`). -/
def scrape_historic_weather_data (env : Env)
    (cache : Cache (List HistoricResponse)) (now : Nat)
    (latitude longitude : Rat) (fs : FS) :
    Except PyError (HourlyFrame × Str) × Cache (List HistoricResponse) ×
      Nat × FS :=
  let req := aqHistoricParams latitude longitude
  let step : Except PyError (List HistoricResponse) ×
      Cache (List HistoricResponse) × Nat :=
    match cacheLookup cache req now with
    | some resps => (.ok resps, cache, 0)
    | none =>
      match retryLoop (env.aqHistoric req) 0 retries with
      | (.ok resps, k) =>
        (.ok resps, { req := req, storedAt := now, resp := resps } :: cache, k)
      | (.error e, k) => (.error e, cache, k)
  match step with
  | (.error e, cache2, k) => (.error e, cache2, k, fs)
  | (.ok resps, cache2, k) =>
    match (match pyIndex resps 0 with
           | .error e => .error e
           | .ok resp => processHistoric resp :
        Except PyError HourlyFrame) with
    | .error e => (.error e, cache2, k, fs)
    | .ok frame => (.ok (frame, image_path), cache2, k, addFile fs image_path)

/-- Validation reply of `weather_handler` (bot.py:69). -/
def current_validation_msg : Str :=
  "❗ An error occurred. Please provide a valid city name after the /current command.".toList

/-- Validation reply of `weather_weekly_plot_command` (bot.py:113). -/
def weekly_validation_msg : Str :=
  "❗ An error occurred. Please provide a valid city name after the /weekly command.".toList

/-- Generic failure reply of `weather_handler` (bot.py:98). -/
def current_error_msg : Str :=
  "An error occurred while retrieving weather data.".toList

/-- Generic failure reply of `weather_weekly_plot_command` (bot.py:129). -/
def weekly_error_msg : Str :=
  "An error occured while retrieving historic weather data 😢".toList

/-- Caption of the weekly plot photo (bot.py:125). -/
def weekly_caption : Str := "Here\x27s a 1 week historic plot ☝".toList

/-- The literal removed from plain-text message bodies (bot.py:65). -/
def currentCmdToken : Str := "/current".toList

/-- A message the bot sends back to the user. -/
inductive Send where
  | text (msg : Str)
  | photo (path caption : Str)
deriving DecidableEq

/-- How a handler invocation ended, seen from the dispatch logic. -/
inductive Outcome where
  | validationErr
  | success
  | fetchErr
deriving DecidableEq

/-- Rendering of a rational in the reply text (stands in for Python float
formatting, whose exact digits no claim depends on). -/
def ratStr (q : Rat) : Str := (toString q.num).toList ++ '/' :: (toString q.den).toList

/-- The success reply of `weather_handler` (bot.py:82-92), built from the city
name, the geocoding match and the weather reading. -/
def currentSuccessText (city : Str) (g : GeoEntry) (w : CurrentReading) : Str :=
  "*📍 Location found: ".toList ++ city ++ "*\n".toList ++
  "Latitude: ".toList ++ ratStr g.latitude ++ "\n".toList ++
  "Longitude: ".toList ++ ratStr g.longitude ++ "\n\n".toList ++
  "*🌤 Current Air Quality Conditions:*\n".toList ++
  "- PM10: ".toList ++ ratStr w.current_pm10 ++ "\n".toList ++
  "- PM2.5: ".toList ++ ratStr w.current_pm2_5 ++ "\n".toList ++
  "- CO (Carbon Monoxide): ".toList ++ ratStr w.current_carbon_monoxide ++
  "\n".toList ++
  "- NO₂ (Nitrogen Dioxide): ".toList ++ ratStr w.current_nitrogen_dioxide

/-- City-name extraction of `weather_handler` (bot.py:62-65): join and strip
the command arguments when present, otherwise strip the message body with
every `"/current"` occurrence removed (`none` when there is no text). -/
def currentCityName (args : List Str) (text : Option Str) : Option Str :=
  if args ≠ [] then some (strip (joinSpace args))
  else
    match text with
    | some t => some (strip (removeOcc currentCmdToken t))
    | none => none

/-- Result of one `weather_handler` invocation: the user-visible sends, the
geocoding GET URLs issued, the air-quality HTTP attempts issued, the outcome,
and the cache state it leaves behind. -/
structure CurrentRun where
  sends : List Send
  geoReqs : List Str
  aqCalls : Nat
  outcome : Outcome
  cache : Cache (List WeatherResponse)

/-- Embedding of `weather_handler` (bot.py:52-99): extract the city name; if
it is missing or empty, reply with the validation message and stop before any
network call; otherwise geocode, fetch current conditions, and reply with the
formatted report, any exception being answered by the fixed generic error
message. -/
def weather_handler (args : List Str) (text : Option Str) (env : Env)
    (cache : Cache (List WeatherResponse)) (now : Nat) : CurrentRun :=
  match currentCityName args text with
  | none =>
    { sends := [.text current_validation_msg], geoReqs := [], aqCalls := 0,
      outcome := .validationErr, cache := cache }
  | some c =>
    if c = [] then
      { sends := [.text current_validation_msg], geoReqs := [], aqCalls := 0,
        outcome := .validationErr, cache := cache }
    else
      let gr := geocoding_search_city env c
      match gr.1 with
      | .error _ =>
        { sends := [.text current_error_msg], geoReqs := gr.2, aqCalls := 0,
          outcome := .fetchErr, cache := cache }
      | .ok g =>
        let sr := scrape_weather_data env cache now g.latitude g.longitude
        match sr.1 with
        | .ok w =>
          { sends := [.text (currentSuccessText c g w)], geoReqs := gr.2,
            aqCalls := sr.2.2, outcome := .success, cache := sr.2.1 }
        | .error _ =>
          { sends := [.text current_error_msg], geoReqs := gr.2,
            aqCalls := sr.2.2, outcome := .fetchErr, cache := sr.2.1 }

/-- Result of one `weather_weekly_plot_command` invocation.  `raised` is the
exception escaping the handler itself, after the `finally` block ran. -/
structure WeeklyRun where
  sends : List Send
  geoReqs : List Str
  aqCalls : Nat
  outcome : Outcome
  fs : FS
  raised : Option PyError
  cache : Cache (List HistoricResponse)

/-- Embedding of `weather_weekly_plot_command` (bot.py:101-134): with no
arguments, reply with the validation message and stop; otherwise geocode and
build the weekly plot inside a `try`, reply with the photo on success or the
generic error text on failure, and run the `finally` cleanup.  The `finally`
block reads `plot_image_path`; on paths where `scrape_historic_weather_data`
never returned, that local was never assigned, so the cleanup itself raises
`UnboundLocalError`, which escapes the handler. -/
def weather_weekly_plot_command (args : List Str) (env : Env)
    (cache : Cache (List HistoricResponse)) (now : Nat) (fs : FS) : WeeklyRun :=
  if args = [] then
    { sends := [.text weekly_validation_msg], geoReqs := [], aqCalls := 0,
      outcome := .validationErr, fs := fs, raised := none, cache := cache }
  else
    let c := strip (joinSpace args)
    let gr := geocoding_search_city env c
    match gr.1 with
    | .error _ =>
      { sends := [.text weekly_error_msg], geoReqs := gr.2, aqCalls := 0,
        outcome := .fetchErr, fs := fs,
        raised := some .unboundLocalError, cache := cache }
    | .ok g =>
      let sr := scrape_historic_weather_data env cache now g.latitude
        g.longitude fs
      match sr.1 with
      | .error _ =>
        { sends := [.text weekly_error_msg], geoReqs := gr.2,
          aqCalls := sr.2.2.1, outcome := .fetchErr, fs := sr.2.2.2,
          raised := some .unboundLocalError, cache := sr.2.1 }
      | .ok fp =>
        match env.photoSend with
        | .ok _ =>
          { sends := [.photo fp.2 weekly_caption], geoReqs := gr.2,
            aqCalls := sr.2.2.1, outcome := .success,
            fs := removeFile sr.2.2.2 fp.2, raised := none, cache := sr.2.1 }
        | .error _ =>
          { sends := [.text weekly_error_msg], geoReqs := gr.2,
            aqCalls := sr.2.2.1, outcome := .fetchErr,
            fs := removeFile sr.2.2.2 fp.2, raised := none, cache := sr.2.1 }

/-- Telegram `CommandHandler` argument convention: `context.args` is the
whitespace-split message text without the leading command word. -/
def telegramArgs (text : Str) : List Str := (words text).drop 1

/-- A `/current <...>` command message dispatched to `weather_handler`. -/
def currentMessageRun (text : Str) (env : Env)
    (cache : Cache (List WeatherResponse)) (now : Nat) : CurrentRun :=
  weather_handler (telegramArgs text) (some text) env cache now

/-- A `/weekly <...>` command message dispatched to
`weather_weekly_plot_command`. -/
def weeklyMessageRun (text : Str) (env : Env)
    (cache : Cache (List HistoricResponse)) (now : Nat) (fs : FS) : WeeklyRun :=
  weather_weekly_plot_command (telegramArgs text) env cache now fs

/-- With a block of `p`-true elements followed by `p`-false ones, `takeWhile`
returns exactly the first block. -/
theorem takeWhile_append_block {α : Type} (p : α → Bool) :
    ∀ (l1 l2 : List α), (∀ c ∈ l1, p c = true) → (∀ c ∈ l2, p c = false) →
      (l1 ++ l2).takeWhile p = l1
  | [], l2, _, h2 => by
    cases l2 with
    | nil => rfl
    | cons c cs => simp [List.takeWhile_cons, h2 c (by simp)]
  | a :: l1, l2, h1, h2 => by
    simp only [List.cons_append, List.takeWhile_cons, h1 a (by simp), if_pos]
    rw [takeWhile_append_block p l1 l2 (fun c hc => h1 c (by simp [hc])) h2]

/-- With a block of `p`-true elements followed by `p`-false ones, `dropWhile`
returns exactly the second block. -/
theorem dropWhile_append_block {α : Type} (p : α → Bool) :
    ∀ (l1 l2 : List α), (∀ c ∈ l1, p c = true) → (∀ c ∈ l2, p c = false) →
      (l1 ++ l2).dropWhile p = l2
  | [], l2, _, h2 => by
    cases l2 with
    | nil => rfl
    | cons c cs => simp [List.dropWhile_cons, h2 c (by simp)]
  | a :: l1, l2, h1, h2 => by
    simp only [List.cons_append, List.dropWhile_cons, h1 a (by simp), if_pos]
    exact dropWhile_append_block p l1 l2 (fun c hc => h1 c (by simp [hc])) h2

/-- Splitting an all-whitespace string yields no words, at any fuel. -/
theorem wordsF_of_allWs :
    ∀ (fuel : Nat) {l : Str}, (∀ c ∈ l, c.isWhitespace = true) →
      wordsF fuel l = []
  | fuel, [], _ => by cases fuel <;> rfl
  | 0, _ :: _, _ => rfl
  | fuel + 1, c :: cs, h => by
    rw [wordsF, if_pos (h c (by simp))]
    exact wordsF_of_allWs fuel (fun d hd => h d (by simp [hd]))

/-- Splitting one non-whitespace word followed by trailing whitespace yields
just that word. -/
theorem words_word_then_ws {w ws : Str} (hne : w ≠ [])
    (hw : ∀ c ∈ w, c.isWhitespace = false)
    (hws : ∀ c ∈ ws, c.isWhitespace = true) : words (w ++ ws) = [w] := by
  cases w with
  | nil => exact absurd rfl hne
  | cons a cs =>
    have h1 : ∀ c ∈ cs, (fun d : Char => !d.isWhitespace) c = true :=
      fun c hc => by simp [hw c (by simp [hc])]
    have h2 : ∀ c ∈ ws, (fun d : Char => !d.isWhitespace) c = false :=
      fun c hc => by simp [hws c hc]
    show wordsF ((cs ++ ws).length + 1) (a :: (cs ++ ws)) = [a :: cs]
    rw [wordsF, if_neg (by simp [hw a (by simp)])]
    rw [takeWhile_append_block (fun d : Char => !d.isWhitespace) cs ws h1 h2]
    rw [dropWhile_append_block (fun d : Char => !d.isWhitespace) cs ws h1 h2]
    rw [wordsF_of_allWs ((cs ++ ws).length) hws]

/-- Stripping an all-whitespace string yields the empty string. -/
theorem strip_of_allWs {l : Str} (h : ∀ c ∈ l, c.isWhitespace = true) :
    strip l = [] := by
  unfold strip
  rw [List.dropWhile_eq_nil_iff.mpr h]
  rfl

/-- A list is a `isPrefixOf` of itself followed by anything. -/
theorem isPrefixOf_append_self {α : Type} [BEq α] [LawfulBEq α] :
    ∀ (l1 l2 : List α), l1.isPrefixOf (l1 ++ l2) = true
  | [], _ => by simp [List.isPrefixOf]
  | a :: l1, l2 => by
    simp only [List.cons_append, List.isPrefixOf, beq_self_eq_true,
      Bool.true_and]
    exact isPrefixOf_append_self l1 l2

/-- The fuelled scanner does not depend on the fuel as long as the fuel is at
least the string length. -/
theorem removeOccF_fuel_irrel (pat : Str) :
    ∀ (f : Nat) {g : Nat} {s : Str}, s.length ≤ f → s.length ≤ g →
      removeOccF pat f s = removeOccF pat g s := by
  intro f
  induction f with
  | zero =>
    intro g s hf _
    have hs : s = [] := List.eq_nil_of_length_eq_zero (Nat.le_zero.mp hf)
    subst hs
    cases g <;> rfl
  | succ f ih =>
    intro g s hf hg
    cases s with
    | nil => cases g <;> rfl
    | cons c cs =>
      cases g with
      | zero => simp at hg
      | succ g =>
        rw [removeOccF, removeOccF]
        by_cases hemp : pat.isEmpty = true
        · rw [if_pos hemp, if_pos hemp]
        · rw [if_neg hemp, if_neg hemp]
          have hfl : cs.length ≤ f := Nat.le_of_succ_le_succ hf
          have hgl : cs.length ≤ g := Nat.le_of_succ_le_succ hg
          by_cases hpre : pat.isPrefixOf (c :: cs) = true
          · rw [if_pos hpre, if_pos hpre]
            have hd : ((c :: cs).drop pat.length).length ≤ cs.length := by
              cases pat with
              | nil => simp [List.isEmpty] at hemp
              | cons q qs => simp
            exact ih (hd.trans hfl) (hd.trans hgl)
          · rw [if_neg hpre, if_neg hpre]
            exact congrArg (c :: ·) (ih hfl hgl)

/-- Removing a leading occurrence of the pattern: `removeOcc` on
`pat ++ s` continues on `s`. -/
theorem removeOcc_append_self {pat s : Str} (hne : pat ≠ []) :
    removeOcc pat (pat ++ s) = removeOcc pat s := by
  cases pat with
  | nil => exact absurd rfl hne
  | cons p ps =>
    show removeOccF (p :: ps) ((p :: ps) ++ s).length (p :: (ps ++ s))
        = removeOcc (p :: ps) s
    have hlen : ((p :: ps) ++ s).length = (ps ++ s).length + 1 := by simp
    rw [hlen]
    rw [removeOccF]
    rw [if_neg (by simp), if_pos (by
      have h := isPrefixOf_append_self (p :: ps) s
      simp only [List.cons_append] at h
      exact h)]
    have hdrop : (p :: (ps ++ s)).drop (p :: ps).length = s := by
      have h := List.drop_left ps s
      simp only [List.length_cons, List.drop_succ_cons]
      exact h
    rw [hdrop]
    exact removeOccF_fuel_irrel (p :: ps) ((ps ++ s).length)
      (by simp) (Nat.le_refl _)

/-- A pattern whose head is not whitespace never occurs in an all-whitespace
string, so the fuelled scanner leaves the string unchanged. -/
theorem removeOccF_of_allWs {p : Char} {ps : Str}
    (hp : p.isWhitespace = false) :
    ∀ (fuel : Nat) {s : Str}, (∀ c ∈ s, c.isWhitespace = true) →
      removeOccF (p :: ps) fuel s = s
  | fuel, [], _ => by cases fuel <;> rfl
  | 0, _ :: _, _ => rfl
  | fuel + 1, c :: cs, h => by
    rw [removeOccF, if_neg (by simp)]
    rw [if_neg (by
      have hpc : (p == c) = false := by
        have hne : p ≠ c := by
          intro he
          rw [he] at hp
          rw [h c (by simp)] at hp
          simp at hp
        simpa using hne
      simp [List.isPrefixOf, hpc])]
    rw [removeOccF_of_allWs hp fuel (fun d hd => h d (by simp [hd]))]

/-- A pattern whose head is not whitespace never occurs in an all-whitespace
string, so `removeOcc` leaves it unchanged. -/
theorem removeOcc_of_allWs {p : Char} {ps : Str}
    (hp : p.isWhitespace = false) {s : Str}
    (h : ∀ c ∈ s, c.isWhitespace = true) : removeOcc (p :: ps) s = s :=
  removeOccF_of_allWs hp s.length h

/-- When the pattern never occurs in the string, the fuelled scanner is the
identity. -/
theorem removeOccF_of_not_contains {pat : Str} :
    ∀ (fuel : Nat) {s : Str}, containsSub pat s = false →
      removeOccF pat fuel s = s
  | fuel, [], _ => by cases fuel <;> rfl
  | 0, _ :: _, _ => rfl
  | fuel + 1, c :: cs, h => by
    rw [containsSub] at h
    simp only [Bool.or_eq_false_iff] at h
    have hne : ¬pat.isEmpty = true := by
      intro hemp
      cases pat with
      | nil => simp [List.isPrefixOf] at h
      | cons q qs => simp [List.isEmpty] at hemp
    rw [removeOccF, if_neg hne, if_neg (by simp [h.1])]
    rw [removeOccF_of_not_contains fuel h.2]

/-- When the pattern never occurs in `s`, `removeOcc` is the identity. -/
theorem removeOcc_of_not_contains {pat s : Str}
    (h : containsSub pat s = false) : removeOcc pat s = s :=
  removeOccF_of_not_contains s.length h

/-- Decidable equality for `Except` results, so that concrete runs can be
settled by evaluation. -/
instance exceptDecEq {ε α : Type} [DecidableEq ε] [DecidableEq α] :
    DecidableEq (Except ε α) := fun x y =>
  match x, y with
  | .ok a, .ok b =>
    if h : a = b then .isTrue (by rw [h]) else .isFalse (by simp [h])
  | .error e, .error f =>
    if h : e = f then .isTrue (by rw [h]) else .isFalse (by simp [h])
  | .ok _, .error _ => .isFalse (by simp)
  | .error _, .ok _ => .isFalse (by simp)

/-- Service environment in which the geocoding service is reachable but knows
no matching city (empty `results` array) and the air-quality transports are
down. -/
def envNoResults : Env :=
  { geo := fun _ => .ok ⟨some []⟩,
    aq := fun _ _ => .error (.transportError "conn reset".toList),
    aqHistoric := fun _ _ => .error (.transportError "conn reset".toList) }

/-- C1: on the `/weekly Atlantis` invocation whose geocoding step fails (zero
results make the lookup raise), the `finally` cleanup of the handler reads the
never-assigned `plot_image_path` and itself raises `UnboundLocalError`, which
escapes the handler after the generic error reply: the cleanup step does not
run without raising on this exit path.  This evaluates the code at the failing
input of the claim. -/
theorem weekly_cleanup_raises_unbound_local_on_failure :
    (weather_weekly_plot_command ["Atlantis".toList] envNoResults [] 0
        []).raised = some PyError.unboundLocalError ∧
    (weather_weekly_plot_command ["Atlantis".toList] envNoResults [] 0
        []).sends = [Send.text weekly_error_msg] := by decide

/-- C2 counterexample: when the remote geocoding service returns zero results,
`geocoding_search_city` fails with an `IndexError` from the `[0]` subscript,
not with the `NotFoundError` the claim prescribes. -/
theorem geocoder_zero_results_raises_index_error_cex :
    (geocoding_search_city envNoResults "London".toList).1
        = Except.error PyError.indexError ∧
    (geocoding_search_city envNoResults "London".toList).1
        ≠ Except.error PyError.notFoundError := by decide

/-- C2 amended: for every city for which the remote service returns zero
results, the resolve operation raises exactly the unhandled `IndexError`
coming from `response.json().get("results")[0]`. -/
theorem geocoder_zero_results_index_error (env : Env) (city : Str)
    (h : env.geo (geocodingUrl city) = .ok ⟨some []⟩) :
    (geocoding_search_city env city).1 = Except.error PyError.indexError := by
  simp [geocoding_search_city, h]

/-- Witness for the amended C2 theorem at a concrete environment and city. -/
theorem geocoder_zero_results_index_error_witness :
    (geocoding_search_city envNoResults "Paris".toList).1
        = Except.error PyError.indexError :=
  geocoder_zero_results_index_error envNoResults "Paris".toList rfl

/-- C10: for every city string the Geocoder issues exactly one GET whose URL is
the fixed endpoint with the city interpolated verbatim between the constant
parts (with `count=1&format=json`), and it returns the first element of the
received `results` list unchanged. -/
theorem geocoder_single_verbatim_get (env : Env) (city : Str) :
    (geocoding_search_city env city).2
        = ["https://geocoding-api.open-meteo.com/v1/search?name=".toList
            ++ city ++ "&count=1&format=json".toList] ∧
    ∀ g rest, env.geo (geocodingUrl city) = .ok ⟨some (g :: rest)⟩ →
      (geocoding_search_city env city).1 = Except.ok g := by
  constructor
  · simp [geocoding_search_city, geocodingUrl, geocodingUrlPre, geocodingUrlSuf]
  · intro g rest h
    simp [geocoding_search_city, h]

/-- Service environment whose geocoding service returns one fixed match. -/
def envOneResult : Env :=
  { geo := fun _ => .ok ⟨some [⟨"London".toList, 515/10, -(13/100)⟩]⟩,
    aq := fun _ _ => .error (.transportError "conn reset".toList),
    aqHistoric := fun _ _ => .error (.transportError "conn reset".toList) }

/-- Witness for C10 at a concrete environment and city. -/
theorem geocoder_single_verbatim_get_witness :
    (geocoding_search_city envOneResult "London".toList).2
        = ["https://geocoding-api.open-meteo.com/v1/search?name=".toList
            ++ "London".toList ++ "&count=1&format=json".toList] ∧
    (geocoding_search_city envOneResult "London".toList).1
        = Except.ok ⟨"London".toList, 515/10, -(13/100)⟩ :=
  ⟨(geocoder_single_verbatim_get envOneResult "London".toList).1,
    (geocoder_single_verbatim_get envOneResult "London".toList).2
      ⟨"London".toList, 515/10, -(13/100)⟩ [] rfl⟩

/-- When the first HTTP attempt succeeds, the retrying transport stops after
exactly one attempt, whatever the retry budget. -/
theorem retryLoop_first_ok {R : Type} (fetch : Nat → Except PyError R) (r : R)
    (h : fetch 0 = .ok r) (n : Nat) : retryLoop fetch 0 n = (.ok r, 1) := by
  cases n with
  | zero => simp [retryLoop, h]
  | succ m => simp [retryLoop, h]

/-- C4: for every upstream response listing the current values positionally as
`[pm10, pm2_5, carbon_monoxide, nitrogen_dioxide]`, the fetcher binds slot 0
to `current_pm10`, slot 1 to `current_pm2_5`, slot 2 to
`current_carbon_monoxide` and slot 3 to `current_nitrogen_dioxide`. -/
theorem current_reading_positional_binding (env : Env)
    (lat lon rlat rlon v0 v1 v2 v3 : Rat)
    (h : env.aq (aqCurrentParams lat lon) 0
        = .ok [{ latitude := rlat, longitude := rlon,
                 current := { values := [v0, v1, v2, v3] } }]) :
    (scrape_weather_data env [] 0 lat lon).1
        = Except.ok { latitude := rlat, longitude := rlon,
                      current_pm10 := v0, current_pm2_5 := v1,
                      current_carbon_monoxide := v2,
                      current_nitrogen_dioxide := v3 } := by
  simp only [scrape_weather_data]
  rw [retryLoop_first_ok (env.aq (aqCurrentParams lat lon)) _ h]
  rfl

/-- Service environment delivering the fixture reading of the specification:
values 5.0, 3.0, 200.0, 12.0 in request order. -/
def envFixedReading : Env :=
  { geo := fun _ => .ok ⟨some []⟩,
    aq := fun _ _ => .ok [⟨51, 0, ⟨[5.0, 3.0, 200.0, 12.0]⟩⟩],
    aqHistoric := fun _ _ => .error (.transportError "conn reset".toList) }

/-- Witness for C4 at the fixture values given in the specification. -/
theorem current_reading_positional_binding_witness :
    (scrape_weather_data envFixedReading [] 0 1 2).1
        = Except.ok { latitude := 51, longitude := 0,
                      current_pm10 := 5.0, current_pm2_5 := 3.0,
                      current_carbon_monoxide := 200.0,
                      current_nitrogen_dioxide := 12.0 } :=
  current_reading_positional_binding envFixedReading 1 2 51 0
    5.0 3.0 200.0 12.0 rfl

/-- C8: starting from a cache with no fresh entry for the coordinates, a first
call to the Weather Fetcher whose transport succeeds populates the cache, and
a second call with identical coordinates within the 3600-second freshness
window issues zero upstream HTTP attempts. -/
theorem weather_cache_hit_on_second_call (env : Env)
    (c0 : Cache (List WeatherResponse)) (lat lon : Rat) (t1 t2 : Nat)
    (resps : List WeatherResponse)
    (hmiss : cacheLookup c0 (aqCurrentParams lat lon) t1 = none)
    (hok : (retryLoop (env.aq (aqCurrentParams lat lon)) 0 retries).1
        = .ok resps)
    (h12 : t1 ≤ t2) (hfresh : t2 < t1 + expire_after) :
    (scrape_weather_data env (scrape_weather_data env c0 t1 lat lon).2.1
        t2 lat lon).2.2 = 0 := by
  have hpair : retryLoop (env.aq (aqCurrentParams lat lon)) 0 retries
      = (Except.ok resps,
          (retryLoop (env.aq (aqCurrentParams lat lon)) 0 retries).2) := by
    rw [← hok]
  have h1 : (scrape_weather_data env c0 t1 lat lon).2.1
      = { req := aqCurrentParams lat lon, storedAt := t1,
          resp := resps } :: c0 := by
    simp only [scrape_weather_data]
    rw [hmiss, hpair]
  have h2 : cacheLookup ({ req := aqCurrentParams lat lon, storedAt := t1,
                           resp := resps } :: c0)
      (aqCurrentParams lat lon) t2 = some resps := by
    simp [cacheLookup, List.find?_cons, hfresh]
  rw [h1]
  simp only [scrape_weather_data]
  rw [h2]

/-- Witness for C8: concrete environment, empty initial cache, calls at times
0 and 10 of the same coordinates. -/
theorem weather_cache_hit_on_second_call_witness :
    (scrape_weather_data envFixedReading
        (scrape_weather_data envFixedReading [] 0 51 0).2.1 10 51 0).2.2
      = 0 :=
  weather_cache_hit_on_second_call envFixedReading [] 51 0 0 10
    [⟨51, 0, ⟨[5.0, 3.0, 200.0, 12.0]⟩⟩] rfl rfl (by decide) (by decide)

/-- Normal form of the weekly time axis: for an hour-spaced, week-long,
half-open range the samples are `start + k * 3600` for `k < 168`. -/
theorem dateRange_week (start : Nat) :
    dateRange start (start + 168 * 3600) 3600
      = (List.range 168).map (fun k => start + k * 3600) := by
  unfold dateRange
  rw [if_neg (by norm_num)]
  have hn : (start + 168 * 3600 - start + 3600 - 1) / 3600 = 168 := by omega
  rw [hn]

/-- C5: for every historic response reporting a 3600-second interval and
`end = start + 168 * 3600`, the plot time axis has exactly 168 samples,
starts at the reported start, steps by exactly 3600 seconds between
consecutive samples, and ends at `start + 167 * 3600` (the end timestamp is
excluded). -/
theorem historic_time_axis_week (start : Nat) (resp : HistoricResponse)
    (frame : HourlyFrame)
    (ht : resp.hourly.time = start)
    (he : resp.hourly.timeEnd = start + 168 * 3600)
    (hi : resp.hourly.interval = 3600)
    (hf : processHistoric resp = .ok frame) :
    frame.date.length = 168 ∧
    frame.date.head? = some start ∧
    frame.date.getLast? = some (start + 167 * 3600) ∧
    ∀ i : Nat, i + 1 < frame.date.length →
      frame.date.getD (i + 1) 0 = frame.date.getD i 0 + 3600 := by
  have hdate : frame.date
      = (List.range 168).map (fun k => start + k * 3600) := by
    unfold processHistoric at hf
    cases h0 : pyIndex resp.hourly.values 0 with
    | error e => rw [h0] at hf; simp at hf
    | ok v0 =>
      rw [h0] at hf
      cases h1 : pyIndex resp.hourly.values 1 with
      | error e => rw [h1] at hf; simp at hf
      | ok v1 =>
        rw [h1] at hf
        cases h2 : pyIndex resp.hourly.values 2 with
        | error e => rw [h2] at hf; simp at hf
        | ok v2 =>
          rw [h2] at hf
          cases h3 : pyIndex resp.hourly.values 3 with
          | error e => rw [h3] at hf; simp at hf
          | ok v3 =>
            rw [h3] at hf
            simp only [Except.ok.injEq] at hf
            rw [← hf, ht, he, hi]
            exact dateRange_week start
  refine ⟨by simp [hdate], ?_, ?_, ?_⟩
  · rw [hdate, List.head?_eq_getElem?]
    rw [List.getElem?_eq_getElem (by simp)]
    simp
  · rw [hdate, List.getLast?_eq_getElem?]
    rw [List.getElem?_eq_getElem (by simp)]
    simp
  · intro i hi2
    rw [hdate] at hi2
    simp only [List.length_map, List.length_range] at hi2
    rw [hdate, List.getD_eq_getElem?_getD, List.getD_eq_getElem?_getD]
    rw [List.getElem?_eq_getElem (by simp [hi2]),
      List.getElem?_eq_getElem (by simp; omega)]
    simp only [List.getElem_map, List.getElem_range, Option.getD_some]
    omega

/-- Concrete historic fixture: week of hourly samples starting at epoch 0. -/
def histResp0 : HistoricResponse := ⟨⟨0, 604800, 3600, [[], [], [], []]⟩⟩

/-- The frame produced from `histResp0`. -/
def histFrame0 : HourlyFrame :=
  { date := dateRange 0 604800 3600, pm10 := [], pm2_5 := [],
    carbon_monoxide := [], nitrogen_dioxide := [] }

/-- Witness for C5 at the concrete fixture. -/
theorem historic_time_axis_week_witness :
    histFrame0.date.length = 168 ∧
    histFrame0.date.head? = some 0 ∧
    histFrame0.date.getLast? = some 601200 ∧
    histFrame0.date.getD 1 0 = histFrame0.date.getD 0 0 + 3600 := by
  have h := historic_time_axis_week 0 histResp0 histFrame0 rfl (by decide)
    rfl rfl
  refine ⟨h.1, h.2.1, ?_, h.2.2.2 0 (by rw [h.1]; omega)⟩
  have := h.2.2.1
  norm_num at this
  exact this

/-- Service environment whose geocoding and historic air-quality services both
succeed, so `/weekly` runs reach the plot and reply stages. -/
def envHistoricOk : Env :=
  { geo := fun _ => .ok ⟨some [⟨"city".toList, 1, 2⟩]⟩,
    aq := fun _ _ => .error (.transportError "conn reset".toList),
    aqHistoric := fun _ _ => .ok [histResp0] }

/-- C9 counterexample: two distinct `/weekly` requests (different cities) both
receive their plot at the same fixed artifact path
`historic_weather_plot.png`; per-request paths are not unique. -/
theorem weekly_artifact_path_not_unique_cex :
    (weather_weekly_plot_command ["london".toList] envHistoricOk [] 0
        []).sends = [Send.photo image_path weekly_caption] ∧
    (weather_weekly_plot_command ["tokyo".toList] envHistoricOk [] 0
        []).sends = [Send.photo image_path weekly_caption] ∧
    "london".toList ≠ "tokyo".toList := by decide

/-- Any successful historic scrape reports its artifact at the fixed
`image_path`. -/
theorem scrape_historic_path_fixed (env : Env)
    (cache : Cache (List HistoricResponse)) (now : Nat) (lat lon : Rat)
    (fs : FS) (fp : HourlyFrame × Str)
    (h : (scrape_historic_weather_data env cache now lat lon fs).1
        = .ok fp) : fp.2 = image_path := by
  obtain ⟨f1, f2⟩ := fp
  simp only [scrape_historic_weather_data] at h
  split at h
  · simp at h
  · split at h
    · simp at h
    · simp only [Except.ok.injEq, Prod.mk.injEq] at h
      exact h.2.symm

/-- C9 amended: every `/weekly` request that succeeds sends its photo at the
single fixed artifact path `historic_weather_plot.png`; the code does not
generate a unique path per request. -/
theorem weekly_success_sends_fixed_path (args : List Str) (env : Env)
    (cache : Cache (List HistoricResponse)) (now : Nat) (fs : FS)
    (h : (weather_weekly_plot_command args env cache now fs).outcome
        = Outcome.success) :
    (weather_weekly_plot_command args env cache now fs).sends
      = [Send.photo image_path weekly_caption] := by
  by_cases ha : args = []
  · simp [weather_weekly_plot_command, ha] at h
  · cases hg : (geocoding_search_city env (strip (joinSpace args))).1 with
    | error e => simp [weather_weekly_plot_command, ha, hg] at h
    | ok g =>
      cases hs : (scrape_historic_weather_data env cache now g.latitude
          g.longitude fs).1 with
      | error e => simp [weather_weekly_plot_command, ha, hg, hs] at h
      | ok fp =>
        cases hp : env.photoSend with
        | error e => simp [weather_weekly_plot_command, ha, hg, hs, hp] at h
        | ok u =>
          have hfp := scrape_historic_path_fixed env cache now g.latitude
            g.longitude fs fp hs
          simp [weather_weekly_plot_command, ha, hg, hs, hp, hfp]

/-- Witness for the amended C9 theorem at a concrete successful run. -/
theorem weekly_success_sends_fixed_path_witness :
    (weather_weekly_plot_command ["london".toList] envHistoricOk [] 0
        []).sends = [Send.photo image_path weekly_caption] :=
  weekly_success_sends_fixed_path ["london".toList] envHistoricOk [] 0 []
    (by decide)

/-- C3: for every `/current` or `/weekly` command message whose city argument
consists only of whitespace (possibly empty), the dispatcher replies with the
validation-error message and performs zero network calls: no geocoding GET and
no air-quality HTTP attempt. -/
theorem blank_city_validation_no_network (rest : Str)
    (hws : ∀ c ∈ rest, c.isWhitespace = true) (env : Env)
    (cw : Cache (List WeatherResponse)) (ch : Cache (List HistoricResponse))
    (now : Nat) (fs : FS) :
    (currentMessageRun ("/current".toList ++ rest) env cw now).sends
        = [Send.text current_validation_msg] ∧
    (currentMessageRun ("/current".toList ++ rest) env cw now).geoReqs
        = [] ∧
    (currentMessageRun ("/current".toList ++ rest) env cw now).aqCalls
        = 0 ∧
    (weeklyMessageRun ("/weekly".toList ++ rest) env ch now fs).sends
        = [Send.text weekly_validation_msg] ∧
    (weeklyMessageRun ("/weekly".toList ++ rest) env ch now fs).geoReqs
        = [] ∧
    (weeklyMessageRun ("/weekly".toList ++ rest) env ch now fs).aqCalls
        = 0 := by
  have hargsC : telegramArgs ("/current".toList ++ rest) = [] := by
    unfold telegramArgs
    rw [words_word_then_ws (by decide) (by decide) hws]
    rfl
  have hargsW : telegramArgs ("/weekly".toList ++ rest) = [] := by
    unfold telegramArgs
    rw [words_word_then_ws (by decide) (by decide) hws]
    rfl
  have hremove : removeOcc currentCmdToken ("/current".toList ++ rest)
      = rest := by
    rw [show currentCmdToken = "/current".toList from rfl]
    rw [@removeOcc_append_self "/current".toList rest (by decide)]
    exact @removeOcc_of_allWs '/' "current".toList (by decide) rest hws
  have hcity : currentCityName [] (some ("/current".toList ++ rest))
      = some [] := by
    unfold currentCityName
    rw [if_neg (by simp)]
    show some (strip (removeOcc currentCmdToken
      ("/current".toList ++ rest))) = some []
    rw [hremove, strip_of_allWs hws]
  have hcur : currentMessageRun ("/current".toList ++ rest) env cw now
      = { sends := [.text current_validation_msg], geoReqs := [],
          aqCalls := 0, outcome := .validationErr, cache := cw } := by
    unfold currentMessageRun
    rw [hargsC]
    unfold weather_handler
    rw [hcity]
    rfl
  have hwk : weeklyMessageRun ("/weekly".toList ++ rest) env ch now fs
      = { sends := [.text weekly_validation_msg], geoReqs := [],
          aqCalls := 0, outcome := .validationErr, fs := fs, raised := none,
          cache := ch } := by
    unfold weeklyMessageRun
    rw [hargsW]
    rfl
  exact ⟨by rw [hcur], by rw [hcur], by rw [hcur],
    by rw [hwk], by rw [hwk], by rw [hwk]⟩

/-- Witness for C3 at a single-space argument and a concrete environment. -/
theorem blank_city_validation_no_network_witness :
    (currentMessageRun ("/current".toList ++ [' ']) envNoResults [] 0).sends
        = [Send.text current_validation_msg] ∧
    (currentMessageRun ("/current".toList ++ [' ']) envNoResults []
        0).geoReqs = [] ∧
    (currentMessageRun ("/current".toList ++ [' ']) envNoResults []
        0).aqCalls = 0 ∧
    (weeklyMessageRun ("/weekly".toList ++ [' ']) envNoResults [] 0
        []).sends = [Send.text weekly_validation_msg] ∧
    (weeklyMessageRun ("/weekly".toList ++ [' ']) envNoResults [] 0
        []).geoReqs = [] ∧
    (weeklyMessageRun ("/weekly".toList ++ [' ']) envNoResults [] 0
        []).aqCalls = 0 :=
  blank_city_validation_no_network [' '] (by decide) envNoResults [] [] 0 []

/-- C6 counterexample: the plain-text message `ab/currentcd` (no leading slash
command) is geocoded as `abcd`, not as the whole message body trimmed: the
handler removes every `"/current"` substring from the body first. -/
theorem plain_text_city_not_trimmed_body_cex :
    (weather_handler [] (some "ab/currentcd".toList) envNoResults []
        0).geoReqs = [geocodingUrl "abcd".toList] ∧
    (weather_handler [] (some "ab/currentcd".toList) envNoResults []
        0).geoReqs ≠ [geocodingUrl (strip "ab/currentcd".toList)] := by
  decide

/-- Request trace of the geocoder: always exactly its one GET URL. -/
theorem geocoding_reqs (env : Env) (c : Str) :
    (geocoding_search_city env c).2 = [geocodingUrl c] := rfl

/-- C6 amended: for every plain-text message routed to the current-conditions
handler, the city used for the geocoding query is the message body with every
occurrence of the substring `"/current"` removed and then trimmed; in
particular it equals the trimmed body whenever the body does not contain
`"/current"`. -/
theorem plain_text_city_removes_current_token (t : Str) (env : Env)
    (cache : Cache (List WeatherResponse)) (now : Nat)
    (h : strip (removeOcc currentCmdToken t) ≠ []) :
    (weather_handler [] (some t) env cache now).geoReqs
        = [geocodingUrl (strip (removeOcc currentCmdToken t))] ∧
    (containsSub currentCmdToken t = false →
      strip (removeOcc currentCmdToken t) = strip t) := by
  constructor
  · have hc : currentCityName [] (some t)
        = some (strip (removeOcc currentCmdToken t)) := by
      unfold currentCityName
      rw [if_neg (by simp)]
    cases hg : (geocoding_search_city env
        (strip (removeOcc currentCmdToken t))).1 with
    | error e => simp [weather_handler, hc, h, hg, geocoding_reqs]
    | ok g =>
      cases hs : (scrape_weather_data env cache now g.latitude
          g.longitude).1 with
      | ok w => simp [weather_handler, hc, h, hg, hs, geocoding_reqs]
      | error e =>
        simp [weather_handler, hc, h, hg, hs, geocoding_reqs]
  · intro hnc
    rw [removeOcc_of_not_contains hnc]

/-- Witness for the amended C6 theorem on a body without the token. -/
theorem plain_text_city_removes_current_token_witness :
    (weather_handler [] (some "Paris".toList) envNoResults [] 0).geoReqs
        = [geocodingUrl (strip (removeOcc currentCmdToken
            "Paris".toList))] ∧
    strip (removeOcc currentCmdToken "Paris".toList)
        = strip "Paris".toList :=
  ⟨(plain_text_city_removes_current_token "Paris".toList envNoResults [] 0
      (by decide)).1,
    (plain_text_city_removes_current_token "Paris".toList envNoResults [] 0
      (by decide)).2 (by decide)⟩

/-- Every `/current` run that ends in a fetch failure replies with exactly the
fixed generic retrieval-error text. -/
theorem current_failure_reply_is_generic (args : List Str) (text : Option Str)
    (env : Env) (cache : Cache (List WeatherResponse)) (now : Nat)
    (h : (weather_handler args text env cache now).outcome
        = Outcome.fetchErr) :
    (weather_handler args text env cache now).sends
        = [Send.text current_error_msg] := by
  cases hc : currentCityName args text with
  | none => simp [weather_handler, hc] at h
  | some c =>
    by_cases hce : c = []
    · simp [weather_handler, hc, hce] at h
    · cases hg : (geocoding_search_city env c).1 with
      | error e => simp [weather_handler, hc, hce, hg]
      | ok g =>
        cases hs : (scrape_weather_data env cache now g.latitude
            g.longitude).1 with
        | ok w => simp [weather_handler, hc, hce, hg, hs] at h
        | error e => simp [weather_handler, hc, hce, hg, hs]

/-- C7: whenever two `/current` runs fail in their geocoding or weather-fetch
step, whatever the failing step and whatever the raw error content, both reply
with the same fixed generic retrieval-error message, so the raw error text
never appears in a reply. -/
theorem current_failures_reply_identical_generic
    (a1 : List Str) (t1 : Option Str) (e1 : Env)
    (c1 : Cache (List WeatherResponse)) (n1 : Nat)
    (a2 : List Str) (t2 : Option Str) (e2 : Env)
    (c2 : Cache (List WeatherResponse)) (n2 : Nat)
    (h1 : (weather_handler a1 t1 e1 c1 n1).outcome = Outcome.fetchErr)
    (h2 : (weather_handler a2 t2 e2 c2 n2).outcome = Outcome.fetchErr) :
    (weather_handler a1 t1 e1 c1 n1).sends = [Send.text current_error_msg] ∧
    (weather_handler a1 t1 e1 c1 n1).sends
        = (weather_handler a2 t2 e2 c2 n2).sends := by
  have g1 := current_failure_reply_is_generic a1 t1 e1 c1 n1 h1
  have g2 := current_failure_reply_is_generic a2 t2 e2 c2 n2 h2
  exact ⟨g1, by rw [g1, g2]⟩

/-- Service environment failing with one raw transport error text. -/
def envFailA : Env :=
  { geo := fun _ => .error (.transportError "secret detail A".toList),
    aq := fun _ _ => .error (.transportError "secret detail A".toList),
    aqHistoric := fun _ _ =>
      .error (.transportError "secret detail A".toList) }

/-- Service environment failing differently: the geocoding JSON has no
`results` key, so the lookup raises a `TypeError`. -/
def envFailB : Env :=
  { geo := fun _ => .ok ⟨none⟩,
    aq := fun _ _ => .error (.transportError "secret detail B".toList),
    aqHistoric := fun _ _ =>
      .error (.transportError "secret detail B".toList) }

/-- Witness for C7: two concrete failing runs with different underlying errors
produce the identical fixed reply. -/
theorem current_failures_reply_identical_generic_witness :
    (weather_handler ["London".toList] none envFailA [] 0).sends
        = [Send.text current_error_msg] ∧
    (weather_handler ["London".toList] none envFailA [] 0).sends
        = (weather_handler ["Paris".toList] none envFailB [] 0).sends :=
  current_failures_reply_identical_generic ["London".toList] none envFailA
    [] 0 ["Paris".toList] none envFailB [] 0 (by decide) (by decide)

end TgWeatherBot
